import Mathlib

/-!
Verification of the style-aware suggestion pipeline of the chat-bot-api
repository, as a shallow embedding in Lean 4.

The embedding follows the Python source under `src/`:
  * `app/models/creator.py`, `app/models/suggestion.py` — the data model;
  * `app/services/vector_service.py` — similarity search, stores, bulk stores;
  * `app/services/ai_service.py` — suggestion generation and the fallback path;
  * `app/api/creators.py` — default style config and get-or-create;
  * `app/api/suggestions.py` — the suggestion endpoint and feedback storage;
  * `app/api/examples.py` — bulk creation endpoints.

Conventions: SQL tables become lists of rows (in insertion order); the
pgvector `cosine_distance` operator, an external collaborator, is a function
parameter; embeddings are lists of rationals; Python dicts become association
lists; fallible external calls return `Except String`.
-/

namespace ChatBotApi

/-! ## Data model (from `app/models/creator.py` and `app/models/suggestion.py`) -/

/-- `creator_styles` row: `CreatorStyle` in `app/models/creator.py`.
Optional JSON dict columns become optional association lists. -/
structure PunctuationRules where
  use_ellipsis : Bool
  use_exclamations : Bool
  max_consecutive_exclamations : Nat
  deriving Repr, DecidableEq

structure CreatorStyle where
  creator_id : Nat
  approved_emojis : Option (List String) := none
  case_style : Option String := none
  text_replacements : Option (List (String × String)) := none
  sentence_separators : Option (List String) := none
  punctuation_rules : Option PunctuationRules := none
  common_abbreviations : Option (List (String × String)) := none
  message_length_preferences : Option (List (String × Nat)) := none
  style_instructions : Option String := none
  tone_range : Option (List String) := none
  deriving Repr, DecidableEq

/-- `style_examples` row: `StyleExample` in `app/models/creator.py`.
`id` and `created_at` stand for the DB-assigned key and timestamp. -/
structure StyleExample where
  id : Nat
  creator_id : Nat
  fan_message : String
  creator_response : String
  category : Option String := none
  embedding : List ℚ := []
  created_at : Nat := 0
  deriving Repr, DecidableEq

/-- `response_examples` row: `ResponseExample` in `app/models/creator.py`
(the parent of its `CreatorResponse` children). -/
structure ResponseExample where
  id : Nat
  creator_id : Nat
  fan_message : String
  category : Option String := none
  embedding : List ℚ := []
  created_at : Nat := 0
  deriving Repr, DecidableEq

/-- `creator_responses` row: `CreatorResponse` in `app/models/creator.py`. -/
structure CreatorResponse where
  id : Nat
  example_id : Nat
  response_text : String
  ranking : Option Nat := some 0
  deriving Repr, DecidableEq

/-- `vector_store` row: `VectorStore` in `app/models/creator.py` — one
accepted conversation (the feedback loop's write target). -/
structure VectorStore where
  id : Nat
  creator_id : Nat
  fan_message : String
  creator_response : String
  embedding : List ℚ := []
  similarity_score : Option ℚ := none
  created_at : Nat := 0
  deriving Repr, DecidableEq

/-- `MessageSuggestion` in `app/models/suggestion.py`. -/
structure MessageSuggestion where
  text : String
  confidence : ℚ := 1
  deriving Repr, DecidableEq

/-- `SuggestionResponse` in `app/models/suggestion.py`. -/
structure SuggestionResponse where
  creator_id : Nat
  fan_message : String
  suggestions : List MessageSuggestion
  model_used : String
  processing_time : ℚ
  similar_conversation_count : Nat := 0
  deriving Repr, DecidableEq

/-! ## Similarity search (from `app/services/vector_service.py`)

The three `find_similar_*` queries share one SQL shape:
restrict to the creator (and category when the Python-truthy test
`if category:` passes), compute `similarity = 1 - cosine_distance(row, q)`,
keep rows with `similarity >= threshold`, `ORDER BY cosine_distance`
(equivalently: similarity descending; the SQL has no secondary sort key,
so ties keep table order, which a stable sort models), `LIMIT limit`. -/

/-- Stable insertion into a list sorted by the Boolean comparator `le`:
the new element goes before the first element it compares `le` to, so
among tied elements the earlier-inserted one stays first. -/
def orderedInsert {α : Type} (le : α → α → Bool) (a : α) : List α → List α
  | [] => [a]
  | b :: l => if le a b then a :: b :: l else b :: orderedInsert le a l

/-- Stable insertion sort by the Boolean comparator `le`: ties keep the
input order, which models an `ORDER BY` with no secondary sort key run
over rows in table order. -/
def insertionSort {α : Type} (le : α → α → Bool) : List α → List α
  | [] => []
  | a :: l => orderedInsert le a (insertionSort le l)

/-- The shared query shape, parameterised by row accessors and by the
`cosine_distance` operator that pgvector supplies.  The sort comparator
`q.2 ≤ p.2` (similarity descending) is the ordering `ORDER BY
cosine_distance` ascending induces on the scored pairs, since
`similarity = 1 - cosine_distance`. -/
def findSimilar {α : Type} (getCreator : α → Nat) (getCategory : α → Option String)
    (getEmbedding : α → List ℚ) (cosineDistance : List ℚ → List ℚ → ℚ)
    (table : List α) (creator_id : Nat) (embedding : List ℚ)
    (similarity_threshold : ℚ) (limit : Nat) (category : Option String) :
    List (α × ℚ) :=
  let rows := table.filter (fun e => getCreator e = creator_id)
  let rows :=
    match category with
    | some c => if c = "" then rows else rows.filter (fun e => getCategory e = some c)
    | none => rows
  let scored := rows.map (fun e => (e, 1 - cosineDistance (getEmbedding e) embedding))
  let kept := scored.filter (fun p => similarity_threshold ≤ p.2)
  let sorted := insertionSort (fun p q => decide (q.2 ≤ p.2)) kept
  sorted.take limit

/-- `find_similar_style_examples` in `app/services/vector_service.py`. -/
def find_similar_style_examples (cosineDistance : List ℚ → List ℚ → ℚ)
    (table : List StyleExample) (creator_id : Nat) (embedding : List ℚ)
    (similarity_threshold : ℚ) (limit : Nat) (category : Option String) :
    List (StyleExample × ℚ) :=
  findSimilar StyleExample.creator_id StyleExample.category StyleExample.embedding
    cosineDistance table creator_id embedding similarity_threshold limit category

/-- `find_similar_response_examples` in `app/services/vector_service.py`. -/
def find_similar_response_examples (cosineDistance : List ℚ → List ℚ → ℚ)
    (table : List ResponseExample) (creator_id : Nat) (embedding : List ℚ)
    (similarity_threshold : ℚ) (limit : Nat) (category : Option String) :
    List (ResponseExample × ℚ) :=
  findSimilar ResponseExample.creator_id ResponseExample.category
    ResponseExample.embedding cosineDistance table creator_id embedding
    similarity_threshold limit category

/-- `find_similar_conversations` in `app/services/vector_service.py`
(no category parameter in the source). -/
def find_similar_conversations (cosineDistance : List ℚ → List ℚ → ℚ)
    (table : List VectorStore) (creator_id : Nat) (embedding : List ℚ)
    (similarity_threshold : ℚ) (limit : Nat) : List (VectorStore × ℚ) :=
  findSimilar VectorStore.creator_id (fun _ => none) VectorStore.embedding
    cosineDistance table creator_id embedding similarity_threshold limit none

/-! ## Creators and the default style config (from `app/api/creators.py`) -/

/-- `creators` row: `Creator` in `app/models/creator.py`. -/
structure Creator where
  id : Nat
  name : String
  description : Option String := none
  avatar_url : Option String := none
  is_active : Bool := true
  deriving Repr, DecidableEq

/-- `create_default_style_config` in `app/api/creators.py`: the default
style configuration a new creator gets. -/
def create_default_style_config (creator_id : Nat) : CreatorStyle :=
  { creator_id := creator_id
    case_style := some "sentence"
    approved_emojis := some ["😊", "❤️", "😘", "😉", "👋", "🔥", "💕", "😍", "🥰", "💋"]
    sentence_separators := some [".", "!", "?"]
    text_replacements := some
      [("you", "u"), ("your", "ur"), ("because", "bc"), ("probably", "prob"),
       ("definitely", "def")]
    common_abbreviations := some
      [("btw", "by the way"), ("omg", "oh my god"), ("lol", "laugh out loud"),
       ("tbh", "to be honest"), ("imo", "in my opinion"), ("rn", "right now"),
       ("ngl", "not gonna lie")]
    message_length_preferences := some
      [("min_length", 10), ("max_length", 500), ("optimal_length", 150)]
    punctuation_rules := some
      { use_ellipsis := true, use_exclamations := true,
        max_consecutive_exclamations := 2 }
    style_instructions := some "Write in a friendly, conversational tone. Keep messages engaging and personal. Use casual language that feels natural and authentic. Vary your responses to avoid sounding repetitive."
    tone_range := some ["friendly", "casual", "enthusiastic", "supportive", "playful"] }

/-- `get_creator_style` in `app/api/creators.py` (the `GET
/creators/:id/style` operation): 404 when the creator does not exist;
returns the stored style when present; otherwise creates, persists and
returns the default style config.  The result pairs the returned style
with the `creator_styles` table after the call. -/
def get_creator_style (creators : List Creator) (styles : List CreatorStyle)
    (creator_id : Nat) : Except String (CreatorStyle × List CreatorStyle) :=
  if (creators.find? (fun c => c.id = creator_id)).isNone then
    .error "404: creator not found"
  else
    match styles.find? (fun s => s.creator_id = creator_id) with
    | some style => .ok (style, styles)
    | none =>
      let style := create_default_style_config creator_id
      .ok (style, styles ++ [style])

/-! ## Suggestion generation (from `app/services/ai_service.py`) -/

/-- `SuggestionRequest` in `app/models/suggestion.py` (`suggestion_count`
modelled with its default 3 resolved). -/
structure SuggestionRequest where
  creator_id : Nat
  fan_message : String
  model : Option String := none
  suggestion_count : Nat := 3
  use_similar_conversations : Bool := true
  similarity_threshold : Option ℚ := some (7/10)
  deriving Repr, DecidableEq

/-- `', '.join(xs)` of Python. -/
def joinComma (xs : List String) : String :=
  String.intercalate ", " xs

/-- Python `"*" * n`. -/
def stars (n : Nat) : String :=
  String.join (List.replicate n "*")

/-- A Python-truthy optional list: `None` and `[]` are falsy. -/
def truthyList {α : Type} : Option (List α) → Bool
  | none => false
  | some xs => !xs.isEmpty

/-- A Python-truthy optional string: `None` and `""` are falsy. -/
def truthyStr : Option String → Bool
  | none => false
  | some s => !(s = "")

/-- `AIService._format_system_message`: the base instruction plus one line
or block per Python-truthy style field, in source order. -/
def format_system_message (creator : Creator) (style : Option CreatorStyle) : String :=
  let base := "You are an AI assistant helping to generate message suggestions for "
    ++ creator.name ++ ". \nYour task is to write responses that perfectly match "
    ++ creator.name ++ "'s writing style.\n\nHere's information about "
    ++ creator.name ++ "'s writing style:\n"
  match style with
  | none => base
  | some st =>
    let m := base
    let m := m ++ (if truthyStr st.case_style then
      "- Case Style: " ++ st.case_style.getD "" ++ "\n" else "")
    let m := m ++ (if truthyList st.approved_emojis then
      "- Approved Emojis: " ++ joinComma (st.approved_emojis.getD []) ++ "\n" else "")
    let m := m ++ (if truthyList st.text_replacements then
      "- Text Replacements:\n" ++ String.join ((st.text_replacements.getD []).map
        (fun p => "  * Replace '" ++ p.1 ++ "' with '" ++ p.2 ++ "'\n")) else "")
    let m := m ++ (if truthyList st.common_abbreviations then
      "- Common Abbreviations:\n" ++ String.join ((st.common_abbreviations.getD []).map
        (fun p => "  * " ++ p.1 ++ " = " ++ p.2 ++ "\n")) else "")
    let m := m ++ (if truthyList st.message_length_preferences then
      "- Message Length Preferences:\n" ++ String.join ((st.message_length_preferences.getD []).map
        (fun p => "  * " ++ p.1 ++ ": " ++ toString p.2 ++ "\n")) else "")
    let m := m ++ (if truthyStr st.style_instructions then
      "\nAdditional Style Instructions:\n" ++ st.style_instructions.getD "" ++ "\n" else "")
    let m := m ++ (if truthyList st.tone_range then
      "- Tone Range: " ++ joinComma (st.tone_range.getD []) ++ "\n" else "")
    m

/-- `AIService._format_style_examples`. -/
def format_style_examples (examples : List StyleExample) : String :=
  if examples.isEmpty then ""
  else
    "\n\nHere are some examples of fan messages and how the creator responded (these show the creator's writing style):\n"
    ++ String.join (examples.map (fun e =>
        "\nFan: " ++ e.fan_message ++ "\nCreator: " ++ e.creator_response ++ "\n"))

/-- `ranking or 0` of Python on an optional ranking. -/
def rankOrZero (r : Option Nat) : Nat := r.getD 0

/-- `AIService._format_response_examples`: each example's responses sorted
by ranking descending (Python's stable `sorted(..., reverse=True)`), then
emitted as numbered options with a star indicator. -/
def format_response_examples (examples : List (ResponseExample × List CreatorResponse)) : String :=
  if examples.isEmpty then ""
  else
    "\n\nHere are some examples of fan messages with multiple possible response options (higher ranking indicates better responses):\n"
    ++ String.join (examples.map (fun e =>
        let sorted_responses :=
          insertionSort (fun a b => decide (rankOrZero b.ranking ≤ rankOrZero a.ranking)) e.2
        let n := sorted_responses.length
        "\nFan: " ++ e.1.fan_message ++ "\n"
        ++ String.join ((sorted_responses.enum).map (fun (i, r) =>
            let indicator := stars (match r.ranking with
              | some k => if k = 0 then n - i else k
              | none => n - i)
            "Response Option " ++ toString (i + 1) ++ " " ++ indicator ++ ": "
              ++ r.response_text ++ "\n"))
        ++ "\n"))

/-- `choice.index`-based confidence in `AIService.generate_suggestions`:
`1.0 - (choice.index * 0.1)`. -/
def suggestionConfidence (index : Nat) : ℚ :=
  1 - index * (1/10)

/-- The completion-parsing loop of `AIService.generate_suggestions`: each
returned choice becomes a `MessageSuggestion` with the stripped text and
the rank-based confidence. -/
def parseSuggestions (completions : List String) : List MessageSuggestion :=
  completions.enum.map (fun (index, text) =>
    { text := text.trim, confidence := suggestionConfidence index })

/-- `AIService.generate_suggestions`: composes the system message from the
style and the supplied examples, calls the chat model (an external
collaborator, modelled as the fallible `chatComplete` parameter taking the
model name, the two prompt turns and the completion count) and parses the
choices.  Wall-clock timing is not modelled; the returned pair is
(suggestions, model_used). -/
def generate_suggestions
    (chatComplete : String → String → String → Nat → Except String (List String))
    (request : SuggestionRequest) (creator : Creator) (style : Option CreatorStyle)
    (style_examples : List StyleExample)
    (response_examples : List (ResponseExample × List CreatorResponse))
    (similar_conversations : List (VectorStore × ℚ)) :
    Except String (List MessageSuggestion × String) :=
  let system_message := format_system_message creator style
  let system_message := system_message ++
    (if !style_examples.isEmpty then format_style_examples style_examples else "")
  let system_message := system_message ++
    (if !response_examples.isEmpty then format_response_examples response_examples else "")
  let system_message := system_message ++
    (if !similar_conversations.isEmpty then
      "\n\nHere are some similar conversations from the past:\n"
      ++ String.join (similar_conversations.map (fun p =>
          "\nFan: " ++ p.1.fan_message ++ "\nCreator: " ++ p.1.creator_response ++ "\n"))
     else "")
  let user_message := "Fan message: " ++ request.fan_message ++ "\n\nGenerate "
    ++ toString request.suggestion_count
    ++ " different response suggestions that match the creator's style."
  let model := request.model.getD "gpt-4"
  match chatComplete model system_message user_message request.suggestion_count with
  | .error e => .error e
  | .ok completions => .ok (parseSuggestions completions, model)

/-- Python's `try`/`except` on a fallible computation: keep the attempt's
result when it succeeds, run the fallback when it raises. -/
def exceptFallback {A : Type} (attempt fallback : Except String A) : Except String A :=
  match attempt with
  | .ok r => .ok r
  | .error _ => fallback

/-- The child rows of a `ResponseExample` (the ORM `example.responses`
relationship): the `creator_responses` rows whose `example_id` is its id. -/
def responsesOf (creator_responses : List CreatorResponse) (e : ResponseExample) :
    List CreatorResponse :=
  creator_responses.filter (fun r => r.example_id = e.id)

/-- `AIService.find_and_use_examples`: embed the fan message, query the
three collections, generate with the retrieved examples; any failure in
that block is caught and the call falls back to `generate_suggestions`
with no examples at all (the `except` branch of the source).  A failure of
the fallback generation itself propagates. -/
def find_and_use_examples
    (embed : String → Except String (List ℚ))
    (chatComplete : String → String → String → Nat → Except String (List String))
    (cosineDistance : List ℚ → List ℚ → ℚ)
    (style_table : List StyleExample) (response_table : List ResponseExample)
    (creator_responses : List CreatorResponse) (conversation_table : List VectorStore)
    (request : SuggestionRequest) (creator : Creator) (style : Option CreatorStyle)
    (similarity_threshold : ℚ := 7/10) (style_examples_limit : Nat := 3)
    (response_examples_limit : Nat := 2) :
    Except String (List MessageSuggestion × String) :=
  let attempt : Except String (List MessageSuggestion × String) :=
    match embed request.fan_message with
    | .error e => .error e
    | .ok embedding =>
      let similar_style_examples := find_similar_style_examples cosineDistance
        style_table creator.id embedding similarity_threshold style_examples_limit none
      let style_examples := similar_style_examples.map Prod.fst
      let similar_response_examples := find_similar_response_examples cosineDistance
        response_table creator.id embedding similarity_threshold response_examples_limit none
      let response_examples := (similar_response_examples.map Prod.fst).map
        (fun e => (e, responsesOf creator_responses e))
      let similar_conversations := find_similar_conversations cosineDistance
        conversation_table creator.id embedding similarity_threshold 3
      generate_suggestions chatComplete request creator style style_examples
        response_examples similar_conversations
  exceptFallback attempt (generate_suggestions chatComplete request creator style [] [] [])

/-! ## The suggestions endpoints (from `app/api/suggestions.py`) -/

/-- `VectorService.store_conversation`: append one `vector_store` row (the
DB assigns `id`, modelled as the caller-supplied `next_id`).  Returns the
stored row and the table after the insert. -/
def store_conversation (table : List VectorStore) (next_id : Nat) (creator_id : Nat)
    (fan_message creator_response : String) (embedding : List ℚ) (now : Nat) :
    VectorStore × List VectorStore :=
  let row : VectorStore :=
    { id := next_id, creator_id := creator_id, fan_message := fan_message,
      creator_response := creator_response, embedding := embedding, created_at := now }
  (row, table ++ [row])

/-- Python's `max(suggestions, key=lambda s: s.confidence)` starting from a
first element: later elements replace the best only when strictly greater,
so the first maximal element wins. -/
def maxByConfidence (best : MessageSuggestion) : List MessageSuggestion → MessageSuggestion
  | [] => best
  | s :: rest => maxByConfidence (if best.confidence < s.confidence then s else best) rest

/-- The `POST /suggestions/` handler `get_suggestions` in
`app/api/suggestions.py`, success path and error propagation: look up the
creator (404 when absent) and its style, run `find_and_use_examples`, and
on success with a non-empty suggestion list re-embed the fan message and
store the highest-confidence suggestion in the `vector_store` table before
building the `SuggestionResponse` (whose `similar_conversation_count` the
handler sets to the literal 0).  The measured wall time is the parameter
`processing_time`.  Returns the response paired with the `vector_store`
table after the call. -/
def get_suggestions_endpoint
    (embed : String → Except String (List ℚ))
    (chatComplete : String → String → String → Nat → Except String (List String))
    (cosineDistance : List ℚ → List ℚ → ℚ)
    (creators : List Creator) (styles : List CreatorStyle)
    (style_table : List StyleExample) (response_table : List ResponseExample)
    (creator_responses : List CreatorResponse) (vector_store : List VectorStore)
    (request : SuggestionRequest) (next_id : Nat) (now : Nat) (processing_time : ℚ) :
    Except String (SuggestionResponse × List VectorStore) :=
  match creators.find? (fun c => c.id = request.creator_id) with
  | none => .error "404: creator not found"
  | some creator =>
    let style := styles.find? (fun s => s.creator_id = request.creator_id)
    match find_and_use_examples embed chatComplete cosineDistance style_table
        response_table creator_responses vector_store request creator style
        (request.similarity_threshold.getD (7/10)) 3 2 with
    | .error e => .error e
    | .ok (suggestions, model_used) =>
      let after_store : Except String (List VectorStore) :=
        match suggestions with
        | [] => .ok vector_store
        | s :: rest =>
          match embed request.fan_message with
          | .error e => .error e
          | .ok embedding =>
            let best := maxByConfidence s rest
            .ok (store_conversation vector_store next_id request.creator_id
              request.fan_message best.text embedding now).2
      match after_store with
      | .error e => .error e
      | .ok vector_store' =>
        .ok ({ creator_id := request.creator_id, fan_message := request.fan_message,
               suggestions := suggestions, model_used := model_used,
               processing_time := processing_time,
               similar_conversation_count := 0 }, vector_store')

/-- The `POST /suggestions/store-feedback` handler `store_feedback` in
`app/api/suggestions.py`: re-embed the fan message and store the selected
response as a new conversation row; any failure surfaces as an error.
Returns the stored row's id and the table after the call. -/
def store_feedback (embed : String → Except String (List ℚ))
    (vector_store : List VectorStore) (next_id : Nat) (now : Nat)
    (creator_id : Nat) (fan_message selected_response : String) :
    Except String (Nat × List VectorStore) :=
  match embed fan_message with
  | .error e => .error ("Error storing feedback: " ++ e)
  | .ok embedding =>
    let (row, table) := store_conversation vector_store next_id creator_id
      fan_message selected_response embedding now
    .ok (row.id, table)

/-! ## The transactional write of `store_response_example`
(from `app/services/vector_service.py`)

The SQLAlchemy session is a transaction: `session.add` stages a pending
row, `session.flush` sends the pending INSERTs (assigning primary keys)
inside the still-open transaction, and only `session.commit` makes them
observable.  An exception at any step before the commit leaves the
committed state untouched (the transaction is rolled back). -/

structure ORMSession where
  committed_examples : List ResponseExample
  committed_responses : List CreatorResponse
  pending_examples : List ResponseExample
  pending_responses : List CreatorResponse
  next_id : Nat
  deriving Repr, DecidableEq

def sessionAddExample (e : ResponseExample) (s : ORMSession) : ORMSession :=
  { s with pending_examples := s.pending_examples ++ [e] }

def sessionAddResponse (r : CreatorResponse) (s : ORMSession) : ORMSession :=
  { s with pending_responses := s.pending_responses ++ [r] }

/-- `session.flush`: the DB assigns primary keys to the pending parent
rows; nothing becomes committed. -/
def sessionFlush (s : ORMSession) : ORMSession :=
  { s with
    pending_examples := s.pending_examples.enum.map
      (fun p => { p.2 with id := s.next_id + p.1 })
    next_id := s.next_id + s.pending_examples.length }

/-- `session.commit`: the transaction's pending rows become observable. -/
def sessionCommit (s : ORMSession) : ORMSession :=
  { s with
    committed_examples := s.committed_examples ++ s.pending_examples
    committed_responses := s.committed_responses ++ s.pending_responses
    pending_examples := []
    pending_responses := [] }

/-- The id the flush gave the example added by `store_response_example`
(Python reads `example.id` after the flush). -/
def lastPendingExampleId (s : ORMSession) : Nat :=
  ((s.pending_examples.getLast?).map ResponseExample.id).getD 0

/-- `ranking = rankings[i] if rankings and i < len(rankings) else None`
(`if rankings` is Python-truthy: `None` and `[]` both skip). -/
def rankingAt (rankings : Option (List Nat)) (i : Nat) : Option Nat :=
  match rankings with
  | none => none
  | some rk => if rk.isEmpty then none else rk.get? i

/-- `VectorService.store_response_example` as its sequence of session
steps, in source order: add the parent, flush (assigning its id), add one
child `CreatorResponse` per response text, then one final commit. -/
def store_response_example_steps (creator_id : Nat) (fan_message : String)
    (responses : List String) (embedding : List ℚ)
    (rankings : Option (List Nat) := none) (category : Option String := none) :
    List (ORMSession → ORMSession) :=
  [sessionAddExample
    { id := 0, creator_id := creator_id, fan_message := fan_message,
      category := category, embedding := embedding },
   sessionFlush]
  ++ responses.enum.map (fun p s =>
      sessionAddResponse
        { id := 0, example_id := lastPendingExampleId s,
          response_text := p.2, ranking := rankingAt rankings p.1 } s)
  ++ [sessionCommit]

/-- Run the first `k` steps of a step list — the state after a failure
that interrupts the operation right there. -/
def runSteps (steps : List (ORMSession → ORMSession)) (s : ORMSession) : ORMSession :=
  steps.foldl (fun s f => f s) s

/-- The whole `store_response_example` call on a session. -/
def store_response_example (creator_id : Nat) (fan_message : String)
    (responses : List String) (embedding : List ℚ)
    (rankings : Option (List Nat) := none) (category : Option String := none)
    (s : ORMSession) : ORMSession :=
  runSteps (store_response_example_steps creator_id fan_message responses
    embedding rankings category) s

/-! ## Bulk creation endpoints (from `app/api/examples.py`) -/

/-- `StyleExampleCreate` request body in `app/api/examples.py`. -/
structure StyleExampleCreate where
  fan_message : String
  creator_response : String
  category : Option String := none
  deriving Repr, DecidableEq

/-- One response item of `ResponseExampleCreate`. -/
structure ResponseItemCreate where
  response_text : String
  ranking : Option Nat := none
  deriving Repr, DecidableEq

/-- `ResponseExampleCreate` request body in `app/api/examples.py`. -/
structure ResponseExampleCreate where
  fan_message : String
  responses : List ResponseItemCreate
  category : Option String := none
  deriving Repr, DecidableEq

/-- One entry of the `errors` list a bulk endpoint returns: the item's
index, its fan-message text truncated to 50 characters with `"..."`
appended, and the error text. -/
structure BulkError where
  index : Nat
  fan_message : String
  error : String
  deriving Repr, DecidableEq

/-- The loop of `bulk_create_style_examples`: per item, embed the fan
message and store the style example; a failure appends an error entry
(with the truncated fan message) and the loop continues with the next
item.  State: (stored table, next row id, created count, errors). -/
def bulk_style_loop (embed : String → Except String (List ℚ)) (creator_id : Nat) :
    List (Nat × StyleExampleCreate) → List StyleExample → Nat → Nat → List BulkError →
    List StyleExample × Nat × Nat × List BulkError
  | [], table, next_id, created_count, errors => (table, next_id, created_count, errors)
  | (idx, ex) :: rest, table, next_id, created_count, errors =>
    match embed ex.fan_message with
    | .error e =>
      bulk_style_loop embed creator_id rest table next_id created_count
        (errors ++ [{ index := idx, fan_message := ex.fan_message.take 50 ++ "...",
                      error := e }])
    | .ok embedding =>
      bulk_style_loop embed creator_id rest
        (table ++ [{ id := next_id, creator_id := creator_id,
                     fan_message := ex.fan_message,
                     creator_response := ex.creator_response,
                     category := ex.category, embedding := embedding }])
        (next_id + 1) (created_count + 1) errors

/-- The `POST /examples/:id/bulk-style-examples` handler
`bulk_create_style_examples`: 404 when the creator does not exist,
otherwise the per-item loop; returns the table after the call, the
created count, the total count and the error entries. -/
def bulk_create_style_examples (embed : String → Except String (List ℚ))
    (creators : List Creator) (creator_id : Nat)
    (examples : List StyleExampleCreate) (table : List StyleExample) (next_id : Nat) :
    Except String (List StyleExample × Nat × Nat × List BulkError) :=
  if (creators.find? (fun c => c.id = creator_id)).isNone then
    .error "404: creator not found"
  else
    let r := bulk_style_loop embed creator_id examples.enum table next_id 0 []
    .ok (r.1, r.2.2.1, examples.length, r.2.2.2)

/-- The loop of `bulk_create_response_examples`: per item, require at
least one response (`ValueError` otherwise), embed, and store the parent
with its children via `store_response_example`; failures append an error
entry and the loop continues.  State: (session, created count, errors). -/
def bulk_response_loop (embed : String → Except String (List ℚ)) (creator_id : Nat) :
    List (Nat × ResponseExampleCreate) → ORMSession → Nat → List BulkError →
    ORMSession × Nat × List BulkError
  | [], s, created_count, errors => (s, created_count, errors)
  | (idx, ex) :: rest, s, created_count, errors =>
    if ex.responses.isEmpty then
      bulk_response_loop embed creator_id rest s created_count
        (errors ++ [{ index := idx, fan_message := ex.fan_message.take 50 ++ "...",
                      error := "At least one response is required" }])
    else
      match embed ex.fan_message with
      | .error e =>
        bulk_response_loop embed creator_id rest s created_count
          (errors ++ [{ index := idx, fan_message := ex.fan_message.take 50 ++ "...",
                        error := e }])
      | .ok embedding =>
        let response_texts := ex.responses.map ResponseItemCreate.response_text
        let rankings := (ex.responses.filterMap ResponseItemCreate.ranking)
        let s := store_response_example creator_id ex.fan_message response_texts
          embedding (if rankings.isEmpty then none else some rankings) ex.category s
        bulk_response_loop embed creator_id rest s (created_count + 1) errors

/-- The `POST /examples/:id/bulk-response-examples` handler
`bulk_create_response_examples`. -/
def bulk_create_response_examples (embed : String → Except String (List ℚ))
    (creators : List Creator) (creator_id : Nat)
    (examples : List ResponseExampleCreate) (s : ORMSession) :
    Except String (ORMSession × Nat × Nat × List BulkError) :=
  if (creators.find? (fun c => c.id = creator_id)).isNone then
    .error "404: creator not found"
  else
    let r := bulk_response_loop embed creator_id examples.enum s 0 []
    .ok (r.1, r.2.1, examples.length, r.2.2)

/-! ## Lemmas about the stable sort and the shared query shape -/

theorem mem_orderedInsert {α : Type} (le : α → α → Bool) (a x : α) (l : List α) :
    x ∈ orderedInsert le a l ↔ x = a ∨ x ∈ l := by
  induction l with
  | nil => simp [orderedInsert]
  | cons b t ih =>
    by_cases h : le a b = true
    · simp [orderedInsert, h]
    · simp only [orderedInsert, if_neg h, List.mem_cons, ih]
      tauto

theorem mem_insertionSort {α : Type} (le : α → α → Bool) (x : α) (l : List α) :
    x ∈ insertionSort le l ↔ x ∈ l := by
  induction l with
  | nil => simp [insertionSort]
  | cons b t ih => simp [insertionSort, mem_orderedInsert, ih]

theorem pairwise_orderedInsert {α : Type} (le : α → α → Bool)
    (total : ∀ a b, le a b = true ∨ le b a = true)
    (letrans : ∀ a b c, le a b = true → le b c = true → le a c = true)
    (a : α) (l : List α) (h : List.Pairwise (fun x y => le x y = true) l) :
    List.Pairwise (fun x y => le x y = true) (orderedInsert le a l) := by
  induction l with
  | nil => simp [orderedInsert]
  | cons b t ih =>
    rcases List.pairwise_cons.mp h with ⟨hb, ht⟩
    by_cases hab : le a b = true
    · rw [orderedInsert, if_pos hab]
      refine List.pairwise_cons.mpr ⟨?_, h⟩
      intro x hx
      rcases List.mem_cons.mp hx with rfl | hxt
      · exact hab
      · exact letrans a b x hab (hb x hxt)
    · rw [orderedInsert, if_neg hab]
      refine List.pairwise_cons.mpr ⟨?_, ih ht⟩
      intro x hx
      rcases (mem_orderedInsert le a x t).mp hx with hxa | hxt
      · rcases total a b with h1 | h1
        · exact absurd h1 hab
        · rw [hxa]; exact h1
      · exact hb x hxt

theorem pairwise_insertionSort {α : Type} (le : α → α → Bool)
    (total : ∀ a b, le a b = true ∨ le b a = true)
    (letrans : ∀ a b c, le a b = true → le b c = true → le a c = true)
    (l : List α) :
    List.Pairwise (fun x y => le x y = true) (insertionSort le l) := by
  induction l with
  | nil => simp [insertionSort]
  | cons b t ih => exact pairwise_orderedInsert le total letrans b _ ih

/-- Everything `findSimilar` returns came from a table row of the queried
creator (and category, when one is Python-truthily given), carries the
similarity the query computed for it, and passed the threshold test. -/
theorem findSimilar_mem {α : Type} {getCreator : α → Nat} {getCategory : α → Option String}
    {getEmbedding : α → List ℚ} {cosineDistance : List ℚ → List ℚ → ℚ}
    {table : List α} {creator_id : Nat} {embedding : List ℚ}
    {similarity_threshold : ℚ} {limit : Nat} {category : Option String}
    {p : α × ℚ}
    (hp : p ∈ findSimilar getCreator getCategory getEmbedding cosineDistance table
      creator_id embedding similarity_threshold limit category) :
    p.1 ∈ table ∧ getCreator p.1 = creator_id ∧ similarity_threshold ≤ p.2 ∧
      p.2 = 1 - cosineDistance (getEmbedding p.1) embedding ∧
      (∀ c, category = some c → c ≠ "" → getCategory p.1 = some c) := by
  unfold findSimilar at hp
  have hp1 := (List.take_sublist _ _).mem hp
  rw [mem_insertionSort] at hp1
  rcases List.mem_filter.mp hp1 with ⟨hp2, hthr⟩
  rcases List.mem_map.mp hp2 with ⟨e, he, rfl⟩
  have hthr' : similarity_threshold ≤ 1 - cosineDistance (getEmbedding e) embedding := by
    simpa using hthr
  match hcat : category with
  | none =>
    rcases List.mem_filter.mp he with ⟨hin, hcid⟩
    exact ⟨hin, by simpa using hcid, hthr', rfl, fun c hc => by simp at hc⟩
  | some c =>
    by_cases hc : c = ""
    · have he1 : e ∈ List.filter (fun e => decide (getCreator e = creator_id)) table := by
        simpa [hc] using he
      rcases List.mem_filter.mp he1 with ⟨hin, hcid⟩
      refine ⟨hin, by simpa using hcid, hthr', rfl, ?_⟩
      intro c' hc' hne
      cases hc'
      exact absurd hc hne
    · have he1 : e ∈ List.filter (fun e => decide (getCategory e = some c))
          (List.filter (fun e => decide (getCreator e = creator_id)) table) := by
        simpa [hc] using he
      rcases List.mem_filter.mp he1 with ⟨he2, hcc⟩
      rcases List.mem_filter.mp he2 with ⟨hin, hcid⟩
      refine ⟨hin, by simpa using hcid, hthr', rfl, ?_⟩
      intro c' hc' _
      cases hc'
      simpa using hcc

theorem findSimilar_length {α : Type} (getCreator : α → Nat) (getCategory : α → Option String)
    (getEmbedding : α → List ℚ) (cosineDistance : List ℚ → List ℚ → ℚ)
    (table : List α) (creator_id : Nat) (embedding : List ℚ)
    (similarity_threshold : ℚ) (limit : Nat) (category : Option String) :
    (findSimilar getCreator getCategory getEmbedding cosineDistance table
      creator_id embedding similarity_threshold limit category).length ≤ limit := by
  unfold findSimilar
  exact List.length_take_le _ _

theorem findSimilar_sorted {α : Type} (getCreator : α → Nat) (getCategory : α → Option String)
    (getEmbedding : α → List ℚ) (cosineDistance : List ℚ → List ℚ → ℚ)
    (table : List α) (creator_id : Nat) (embedding : List ℚ)
    (similarity_threshold : ℚ) (limit : Nat) (category : Option String) :
    List.Pairwise (fun p q : α × ℚ => q.2 ≤ p.2)
      (findSimilar getCreator getCategory getEmbedding cosineDistance table
        creator_id embedding similarity_threshold limit category) := by
  have key : ∀ l : List (α × ℚ), List.Pairwise (fun p q : α × ℚ => q.2 ≤ p.2)
      (List.take limit (insertionSort (fun p q : α × ℚ => decide (q.2 ≤ p.2)) l)) := by
    intro l
    have hs := pairwise_insertionSort (fun p q : α × ℚ => decide (q.2 ≤ p.2))
      (fun a b => by rcases le_total b.2 a.2 with h | h <;> simp [h])
      (fun a b c h1 h2 => by
        simp only [decide_eq_true_eq] at h1 h2 ⊢
        exact le_trans h2 h1) l
    exact (List.Pairwise.sublist (List.take_sublist limit _) hs).imp
      (fun h => by simpa using h)
  exact key _

/-! ## Claim theorems -/

/-- C4: for every similarity query over any of the three collections, the
returned list has at most `limit` entries, every returned entry belongs to
the queried creator (and category, when a non-empty one is given — the
source's `if category:` test skips the filter for `None` and `""`), and
every returned similarity score is at least the threshold. -/
theorem C4_find_similar_bounds :
    ∀ (cosineDistance : List ℚ → List ℚ → ℚ) (style_table : List StyleExample)
      (response_table : List ResponseExample) (conversation_table : List VectorStore)
      (creator_id : Nat) (embedding : List ℚ) (threshold : ℚ) (limit : Nat)
      (category : Option String),
    ((find_similar_style_examples cosineDistance style_table creator_id embedding
        threshold limit category).length ≤ limit
      ∧ ∀ p ∈ find_similar_style_examples cosineDistance style_table creator_id
          embedding threshold limit category,
        p.1.creator_id = creator_id ∧ threshold ≤ p.2 ∧
          ∀ c, category = some c → c ≠ "" → p.1.category = some c)
    ∧ ((find_similar_response_examples cosineDistance response_table creator_id
        embedding threshold limit category).length ≤ limit
      ∧ ∀ p ∈ find_similar_response_examples cosineDistance response_table creator_id
          embedding threshold limit category,
        p.1.creator_id = creator_id ∧ threshold ≤ p.2 ∧
          ∀ c, category = some c → c ≠ "" → p.1.category = some c)
    ∧ ((find_similar_conversations cosineDistance conversation_table creator_id
        embedding threshold limit).length ≤ limit
      ∧ ∀ p ∈ find_similar_conversations cosineDistance conversation_table creator_id
          embedding threshold limit,
        p.1.creator_id = creator_id ∧ threshold ≤ p.2) := by
  intro cd st rt ct cid emb thr lim cat
  refine ⟨⟨findSimilar_length _ _ _ _ _ _ _ _ _ _, fun p hp => ?_⟩,
          ⟨findSimilar_length _ _ _ _ _ _ _ _ _ _, fun p hp => ?_⟩,
          ⟨findSimilar_length _ _ _ _ _ _ _ _ _ _, fun p hp => ?_⟩⟩
  · obtain ⟨_, h1, h2, _, h3⟩ := findSimilar_mem hp
    exact ⟨h1, h2, h3⟩
  · obtain ⟨_, h1, h2, _, h3⟩ := findSimilar_mem hp
    exact ⟨h1, h2, h3⟩
  · obtain ⟨_, h1, h2, _, _⟩ := findSimilar_mem hp
    exact ⟨h1, h2⟩

/-- C5 (amended): every similarity query's result is sorted non-increasing
by similarity score; the SQL has no secondary sort key, so entries with
equal similarity keep the table's row order instead of being
most-recent-first. -/
theorem C5_find_similar_sorted_amended :
    ∀ (cosineDistance : List ℚ → List ℚ → ℚ) (style_table : List StyleExample)
      (response_table : List ResponseExample) (conversation_table : List VectorStore)
      (creator_id : Nat) (embedding : List ℚ) (threshold : ℚ) (limit : Nat)
      (category : Option String),
    List.Pairwise (fun p q => q.2 ≤ p.2)
      (find_similar_style_examples cosineDistance style_table creator_id embedding
        threshold limit category)
    ∧ List.Pairwise (fun p q => q.2 ≤ p.2)
      (find_similar_response_examples cosineDistance response_table creator_id
        embedding threshold limit category)
    ∧ List.Pairwise (fun p q => q.2 ≤ p.2)
      (find_similar_conversations cosineDistance conversation_table creator_id
        embedding threshold limit) := by
  intro cd st rt ct cid emb thr lim cat
  exact ⟨findSimilar_sorted _ _ _ _ _ _ _ _ _ _,
         findSimilar_sorted _ _ _ _ _ _ _ _ _ _,
         findSimilar_sorted _ _ _ _ _ _ _ _ _ _⟩

/-- C5 (counterexample): two conversation rows of the same creator tie at
similarity 9/10; the query returns them in table order (the row created at
time 0 before the row created at time 1), not most-recent-first, because
the SQL orders by the distance alone. -/
theorem C5_tie_order_counterexample :
    ((find_similar_conversations (fun _ _ => 1/10)
        [{ id := 1, creator_id := 7, fan_message := "a", creator_response := "b",
           created_at := 0 },
         { id := 2, creator_id := 7, fan_message := "c", creator_response := "d",
           created_at := 1 }]
        7 [1] (1/2) 5).map (fun p => p.2) = [9/10, 9/10])
    ∧ ((find_similar_conversations (fun _ _ => 1/10)
        [{ id := 1, creator_id := 7, fan_message := "a", creator_response := "b",
           created_at := 0 },
         { id := 2, creator_id := 7, fan_message := "c", creator_response := "d",
           created_at := 1 }]
        7 [1] (1/2) 5).map (fun p => p.1.created_at) = [0, 1])
    ∧ ¬ ((find_similar_conversations (fun _ _ => 1/10)
        [{ id := 1, creator_id := 7, fan_message := "a", creator_response := "b",
           created_at := 0 },
         { id := 2, creator_id := 7, fan_message := "c", creator_response := "d",
           created_at := 1 }]
        7 [1] (1/2) 5).map (fun p => p.1.created_at) = [1, 0]) := by
  refine ⟨?_, ?_, ?_⟩ <;>
    norm_num [find_similar_conversations, findSimilar, insertionSort, orderedInsert]

theorem pairwise_fst_lt_enumFrom {α : Type} (l : List α) :
    ∀ n : Nat, List.Pairwise (fun p q : Nat × α => p.1 < q.1) (List.enumFrom n l) := by
  induction l with
  | nil => intro n; simp
  | cons a t ih =>
    intro n
    simp only [List.enumFrom]
    refine List.pairwise_cons.mpr ⟨?_, ih (n + 1)⟩
    intro x hx
    have hm : (x.1, x.2) ∈ List.enumFrom (n + 1) t := by simpa using hx
    have := (List.mem_enumFrom hm).1
    omega

theorem fst_lt_length_of_mem_enum {α : Type} {l : List α} {p : Nat × α}
    (hp : p ∈ l.enum) : p.1 < l.length := by
  have hm : (p.1, p.2) ∈ List.enumFrom 0 l := by simpa [List.enum] using hp
  have := (List.mem_enumFrom hm).2.1
  omega

theorem suggestionConfidence_strict_anti {i j : Nat} (h : i < j) :
    suggestionConfidence j < suggestionConfidence i := by
  unfold suggestionConfidence
  have hq : (i : ℚ) < j := by exact_mod_cast h
  have := mul_lt_mul_of_pos_right hq (show (0 : ℚ) < 1/10 by norm_num)
  linarith

theorem suggestionConfidence_le_one (i : Nat) : suggestionConfidence i ≤ 1 := by
  unfold suggestionConfidence
  have : (0 : ℚ) ≤ i * (1/10) := by positivity
  linarith

theorem suggestionConfidence_nonneg {i : Nat} (h : i ≤ 10) :
    0 ≤ suggestionConfidence i := by
  unfold suggestionConfidence
  have hq : (i : ℚ) ≤ 10 := by exact_mod_cast h
  nlinarith

/-- C6 (amended): the parsed candidates' confidences strictly decrease with
the completion rank for every completion count, but each confidence lies in
[0,1] only when at most 11 completions are requested — the i-th candidate
gets `1 - i/10`, which is negative from the twelfth candidate on. -/
theorem C6_confidence_amended :
    (∀ completions : List String,
      List.Pairwise (fun a b => b.confidence < a.confidence)
        (parseSuggestions completions))
    ∧ (∀ completions : List String, completions.length ≤ 11 →
      ∀ s ∈ parseSuggestions completions, 0 ≤ s.confidence ∧ s.confidence ≤ 1) := by
  constructor
  · intro completions
    unfold parseSuggestions
    rw [List.pairwise_map]
    refine (pairwise_fst_lt_enumFrom completions 0).imp ?_
    intro p q h
    exact suggestionConfidence_strict_anti h
  · intro completions hlen s hs
    unfold parseSuggestions at hs
    rcases List.mem_map.mp hs with ⟨p, hp, rfl⟩
    have hi : p.1 < completions.length := fst_lt_length_of_mem_enum hp
    have h10 : p.1 ≤ 10 := by omega
    exact ⟨suggestionConfidence_nonneg h10, suggestionConfidence_le_one p.1⟩

/-- C6 (counterexample): a successful generation with 12 requested
completions assigns the twelfth candidate the confidence `-1/10`, which
lies outside [0,1]. -/
theorem C6_confidence_counterexample :
    (parseSuggestions (List.replicate 12 "ok")).map MessageSuggestion.confidence
      = [1, 9/10, 4/5, 7/10, 3/5, 1/2, 2/5, 3/10, 1/5, 1/10, 0, -1/10]
    ∧ ¬ (0 ≤ (-1/10 : ℚ)) := by
  constructor
  · norm_num [parseSuggestions, suggestionConfidence, List.replicate,
      List.enum, List.enumFrom]
  · norm_num

/-- C3 (counterexample): the documented default style profile does not have
an empty text-replacement map or an empty abbreviation map — it ships five
text replacements and seven abbreviations. -/
theorem C3_default_profile_counterexample :
    (create_default_style_config 1).text_replacements =
      some [("you", "u"), ("your", "ur"), ("because", "bc"), ("probably", "prob"),
            ("definitely", "def")]
    ∧ (create_default_style_config 1).common_abbreviations =
      some [("btw", "by the way"), ("omg", "oh my god"), ("lol", "laugh out loud"),
            ("tbh", "to be honest"), ("imo", "in my opinion"), ("rn", "right now"),
            ("ngl", "not gonna lie")]
    ∧ (create_default_style_config 1).text_replacements ≠ some []
    ∧ (create_default_style_config 1).common_abbreviations ≠ some [] := by
  refine ⟨rfl, rfl, ?_, ?_⟩ <;> simp [create_default_style_config]

/-- C3 (amended): for a creator with no stored style, `get_creator_style`
persists and returns the default profile, whose values are: sentence case,
ten approved emojis, the standard terminators, a five-entry replacement
map, a seven-entry abbreviation map, length preference min 10 / max 500 /
optimal 150, non-empty friendly-tone instructions, and the five documented
tones. -/
theorem C3_default_profile_amended :
    (∀ cid : Nat,
      (create_default_style_config cid).creator_id = cid
      ∧ (create_default_style_config cid).case_style = some "sentence"
      ∧ (create_default_style_config cid).approved_emojis =
          some ["😊", "❤️", "😘", "😉", "👋", "🔥", "💕", "😍", "🥰", "💋"]
      ∧ (create_default_style_config cid).sentence_separators = some [".", "!", "?"]
      ∧ (create_default_style_config cid).text_replacements =
          some [("you", "u"), ("your", "ur"), ("because", "bc"),
                ("probably", "prob"), ("definitely", "def")]
      ∧ (create_default_style_config cid).common_abbreviations =
          some [("btw", "by the way"), ("omg", "oh my god"), ("lol", "laugh out loud"),
                ("tbh", "to be honest"), ("imo", "in my opinion"), ("rn", "right now"),
                ("ngl", "not gonna lie")]
      ∧ (create_default_style_config cid).message_length_preferences =
          some [("min_length", 10), ("max_length", 500), ("optimal_length", 150)]
      ∧ (create_default_style_config cid).style_instructions ≠ none
      ∧ (create_default_style_config cid).style_instructions ≠ some ""
      ∧ (create_default_style_config cid).tone_range =
          some ["friendly", "casual", "enthusiastic", "supportive", "playful"])
    ∧ (∀ (creators : List Creator) (styles : List CreatorStyle) (cid : Nat),
      (creators.find? (fun c => c.id = cid)).isSome = true →
      styles.find? (fun s => s.creator_id = cid) = none →
      get_creator_style creators styles cid
        = .ok (create_default_style_config cid,
               styles ++ [create_default_style_config cid])) := by
  constructor
  · intro cid
    refine ⟨rfl, rfl, rfl, rfl, rfl, rfl, rfl, ?_, ?_, rfl⟩ <;>
      simp [create_default_style_config]
  · intro creators styles cid hc hs
    obtain ⟨c, hc'⟩ := Option.isSome_iff_exists.mp hc
    simp [get_creator_style, hc', hs]

/-- C8: `get_or_create_style_profile` is idempotent — for a creator with no
prior profile, the first call returns and persists the default profile, a
second call returns the same profile without writing again, and exactly one
profile row for that creator is stored. -/
theorem C8_get_or_create_idempotent (creators : List Creator)
    (styles : List CreatorStyle) (creator_id : Nat)
    (hc : (creators.find? (fun c => c.id = creator_id)).isSome = true)
    (hs : styles.find? (fun s => s.creator_id = creator_id) = none) :
    get_creator_style creators styles creator_id
      = .ok (create_default_style_config creator_id,
             styles ++ [create_default_style_config creator_id])
    ∧ get_creator_style creators
        (styles ++ [create_default_style_config creator_id]) creator_id
      = .ok (create_default_style_config creator_id,
             styles ++ [create_default_style_config creator_id])
    ∧ ((styles ++ [create_default_style_config creator_id]).filter
        (fun s => s.creator_id = creator_id)).length = 1 := by
  obtain ⟨c, hc'⟩ := Option.isSome_iff_exists.mp hc
  have hfilter : styles.filter (fun s => decide (s.creator_id = creator_id)) = [] := by
    rw [List.filter_eq_nil_iff]
    intro s hsmem hpred
    have := List.find?_eq_none.mp hs s hsmem
    exact this hpred
  refine ⟨?_, ?_, ?_⟩
  · simp [get_creator_style, hc', hs]
  · have hsecond : (styles ++ [create_default_style_config creator_id]).find?
        (fun s => s.creator_id = creator_id)
        = some (create_default_style_config creator_id) := by
      rw [List.find?_append, hs]
      simp [create_default_style_config]
    simp [get_creator_style, hc', hsecond]
  · rw [List.filter_append, hfilter]
    simp [create_default_style_config]

/-- C8 (witness): the idempotence theorem applied to creator 1 with an
empty style table. -/
theorem C8_get_or_create_idempotent_witness :
    get_creator_style [{ id := 1, name := "c1" }] [] 1
      = .ok (create_default_style_config 1, [] ++ [create_default_style_config 1])
    ∧ get_creator_style [{ id := 1, name := "c1" }]
        ([] ++ [create_default_style_config 1]) 1
      = .ok (create_default_style_config 1, [] ++ [create_default_style_config 1])
    ∧ (([] ++ [create_default_style_config 1]).filter
        (fun s : CreatorStyle => s.creator_id = 1)).length = 1 :=
  C8_get_or_create_idempotent [{ id := 1, name := "c1" }] [] 1 (by rfl) (by rfl)

/-- C2 (amended): when the embedding step (or anything else inside the
retrieval block) fails, `find_and_use_examples` does not surface the
failure — it silently falls back to a degraded generation with no
retrieved examples; an error surfaces only when that no-example fallback's
own language-model call fails, and then it is the fallback's error. -/
theorem C2_generation_fallback_amended :
    (∀ (embed : String → Except String (List ℚ))
       (chatComplete : String → String → String → Nat → Except String (List String))
       (cosineDistance : List ℚ → List ℚ → ℚ)
       (style_table : List StyleExample) (response_table : List ResponseExample)
       (creator_responses : List CreatorResponse) (conversation_table : List VectorStore)
       (request : SuggestionRequest) (creator : Creator) (style : Option CreatorStyle)
       (threshold : ℚ) (sl rl : Nat) (e : String),
      embed request.fan_message = .error e →
      find_and_use_examples embed chatComplete cosineDistance style_table
          response_table creator_responses conversation_table request creator style
          threshold sl rl
        = generate_suggestions chatComplete request creator style [] [] [])
    ∧ (∀ (embed : String → Except String (List ℚ))
       (chatComplete : String → String → String → Nat → Except String (List String))
       (cosineDistance : List ℚ → List ℚ → ℚ)
       (style_table : List StyleExample) (response_table : List ResponseExample)
       (creator_responses : List CreatorResponse) (conversation_table : List VectorStore)
       (request : SuggestionRequest) (creator : Creator) (style : Option CreatorStyle)
       (threshold : ℚ) (sl rl : Nat) (e : String),
      find_and_use_examples embed chatComplete cosineDistance style_table
          response_table creator_responses conversation_table request creator style
          threshold sl rl = .error e →
      generate_suggestions chatComplete request creator style [] [] [] = .error e) := by
  constructor
  · intro embed chatComplete cd st rt cr ct request creator style thr sl rl e he
    simp [find_and_use_examples, he, exceptFallback]
  · intro embed chatComplete cd st rt cr ct request creator style thr sl rl e h
    unfold find_and_use_examples at h
    rcases hemb : embed request.fan_message with em | emb <;> rw [hemb] at h
    · simpa [exceptFallback] using h
    · simp only [exceptFallback] at h
      split at h
      · exact absurd h (by simp)
      · exact h

/-- C2 (counterexample): with the embedding service failing and the
language model up, the generation call succeeds and returns one candidate
(from the no-examples fallback) instead of surfacing a GenerationFailure
with no candidate list. -/
theorem C2_generation_fallback_counterexample :
    (find_and_use_examples (fun _ => .error "embedding down")
      (fun _ _ _ _ => .ok ["hey there"]) (fun _ _ => 0) [] [] [] []
      { creator_id := 1, fan_message := "hi" }
      { id := 1, name := "c" } none).map (fun p => (p.1.length, p.2))
    = .ok (1, "gpt-4") := by
  norm_num [find_and_use_examples, generate_suggestions, parseSuggestions, Except.map, exceptFallback]

/-- C10: every successful suggestion-generation call reports
`similar_conversation_count = 0` in its response — the handler hard-codes
the literal 0 whatever number of similar conversations was retrieved and
used in the prompt. -/
theorem C10_similar_conversation_count_zero
    (embed : String → Except String (List ℚ))
    (chatComplete : String → String → String → Nat → Except String (List String))
    (cosineDistance : List ℚ → List ℚ → ℚ)
    (creators : List Creator) (styles : List CreatorStyle)
    (style_table : List StyleExample) (response_table : List ResponseExample)
    (creator_responses : List CreatorResponse) (vector_store : List VectorStore)
    (request : SuggestionRequest) (next_id : Nat) (now : Nat) (processing_time : ℚ)
    (resp : SuggestionResponse) (table' : List VectorStore)
    (h : get_suggestions_endpoint embed chatComplete cosineDistance creators styles
      style_table response_table creator_responses vector_store request next_id now
      processing_time = .ok (resp, table')) :
    resp.similar_conversation_count = 0 := by
  unfold get_suggestions_endpoint at h
  rcases hfind : creators.find? (fun c => c.id = request.creator_id) with _ | creator <;>
    rw [hfind] at h
  · simp at h
  · dsimp only at h
    rcases hfue : find_and_use_examples embed chatComplete cosineDistance style_table
        response_table creator_responses vector_store request creator
        (styles.find? (fun s => s.creator_id = request.creator_id))
        (request.similarity_threshold.getD (7/10)) 3 2 with e | p <;> rw [hfue] at h
    · simp at h
    · obtain ⟨suggestions, model_used⟩ := p
      rcases suggestions with _ | ⟨s, rest⟩
      · simp only [Except.ok.injEq, Prod.mk.injEq] at h
        obtain ⟨h1, -⟩ := h
        rw [← h1]
      · rcases hemb : embed request.fan_message with e2 | emb <;> rw [hemb] at h
        · simp at h
        · simp only [Except.ok.injEq, Prod.mk.injEq] at h
          obtain ⟨h1, -⟩ := h
          rw [← h1]

/-- C10 (witness): the hard-coded zero, observed on a concrete successful
call whose language model returns no completion. -/
theorem C10_similar_conversation_count_zero_witness :
    ({ creator_id := 1, fan_message := "hi", suggestions := [],
       model_used := "gpt-4", processing_time := 0,
       similar_conversation_count := 0 } : SuggestionResponse).similar_conversation_count
      = 0 :=
  C10_similar_conversation_count_zero (fun _ => .ok [1]) (fun _ _ _ _ => .ok [])
    (fun _ _ => 0) [{ id := 1, name := "c" }] [] [] [] [] []
    { creator_id := 1, fan_message := "hi" } 1 0 0 _ []
    (by norm_num [get_suggestions_endpoint, find_and_use_examples,
      generate_suggestions, parseSuggestions, find_similar_style_examples,
      find_similar_response_examples, find_similar_conversations, findSimilar,
      insertionSort, orderedInsert, exceptFallback])

theorem maxByConfidence_mem : ∀ (l : List MessageSuggestion) (s : MessageSuggestion),
    maxByConfidence s l ∈ s :: l := by
  intro l
  induction l with
  | nil => intro s; simp [maxByConfidence]
  | cons u rest ih =>
    intro s
    simp only [maxByConfidence]
    rcases List.mem_cons.mp (ih (if s.confidence < u.confidence then u else s)) with h | h
    · by_cases hc : s.confidence < u.confidence
      · rw [h, if_pos hc]; simp
      · rw [h, if_neg hc]; simp
    · simp [List.mem_cons, h]

theorem maxByConfidence_le : ∀ (l : List MessageSuggestion) (s t : MessageSuggestion),
    t ∈ s :: l → t.confidence ≤ (maxByConfidence s l).confidence := by
  intro l
  induction l with
  | nil =>
    intro s t ht
    simp only [List.mem_cons, List.not_mem_nil, or_false] at ht
    rw [ht]
    simp [maxByConfidence]
  | cons u rest ih =>
    intro s t ht
    simp only [maxByConfidence]
    have hb : s.confidence ≤ (if s.confidence < u.confidence then u else s).confidence
        ∧ u.confidence ≤ (if s.confidence < u.confidence then u else s).confidence := by
      by_cases hc : s.confidence < u.confidence
      · simp [hc, le_of_lt hc]
      · simp [hc, le_of_not_lt hc]
    rcases List.mem_cons.mp ht with rfl | ht2
    · exact le_trans hb.1 (ih _ _ (List.mem_cons_self _ _))
    · rcases List.mem_cons.mp ht2 with rfl | ht3
      · exact le_trans hb.2 (ih _ _ (List.mem_cons_self _ _))
      · exact ih _ t (List.mem_cons_of_mem _ ht3)

/-- C1 (amended): the conversation collection grows through the suggestion
endpoint itself as well as through explicit feedback — every successful
`get_suggestions` call with a non-empty candidate list appends one
ConversationRecord whose stored response text is the highest-confidence
candidate (Python's `max` over the returned suggestions; an empty list
leaves the store unchanged), and every successful `store_feedback` call
appends one record holding the selected candidate. -/
theorem C1_conversation_growth_amended :
    (∀ (embed : String → Except String (List ℚ))
       (chatComplete : String → String → String → Nat → Except String (List String))
       (cosineDistance : List ℚ → List ℚ → ℚ)
       (creators : List Creator) (styles : List CreatorStyle)
       (style_table : List StyleExample) (response_table : List ResponseExample)
       (creator_responses : List CreatorResponse) (vector_store : List VectorStore)
       (request : SuggestionRequest) (next_id : Nat) (now : Nat) (processing_time : ℚ)
       (resp : SuggestionResponse) (table' : List VectorStore),
      get_suggestions_endpoint embed chatComplete cosineDistance creators styles
        style_table response_table creator_responses vector_store request next_id now
        processing_time = .ok (resp, table') →
      (resp.suggestions = [] → table' = vector_store)
      ∧ (∀ (s : MessageSuggestion) (rest : List MessageSuggestion),
          resp.suggestions = s :: rest →
          ∃ row : VectorStore, table' = vector_store ++ [row]
            ∧ row.creator_id = request.creator_id
            ∧ row.fan_message = request.fan_message
            ∧ row.creator_response = (maxByConfidence s rest).text
            ∧ maxByConfidence s rest ∈ resp.suggestions
            ∧ ∀ t ∈ resp.suggestions,
                t.confidence ≤ (maxByConfidence s rest).confidence))
    ∧ (∀ (embed : String → Except String (List ℚ))
       (vector_store : List VectorStore) (next_id : Nat) (now : Nat)
       (creator_id : Nat) (fan_message selected_response : String)
       (rid : Nat) (table' : List VectorStore),
      store_feedback embed vector_store next_id now creator_id fan_message
        selected_response = .ok (rid, table') →
      ∃ row : VectorStore, table' = vector_store ++ [row]
        ∧ row.creator_id = creator_id ∧ row.fan_message = fan_message
        ∧ row.creator_response = selected_response) := by
  constructor
  · intro embed chatComplete cd creators styles st rt cr vs request next_id now pt
      resp table' h
    unfold get_suggestions_endpoint at h
    rcases hfind : creators.find? (fun c => c.id = request.creator_id) with _ | creator <;>
      rw [hfind] at h
    · simp at h
    · dsimp only at h
      rcases hfue : find_and_use_examples embed chatComplete cd st rt cr vs request
          creator (styles.find? (fun s => s.creator_id = request.creator_id))
          (request.similarity_threshold.getD (7/10)) 3 2 with e | p <;> rw [hfue] at h
      · simp at h
      · obtain ⟨suggestions, model_used⟩ := p
        rcases suggestions with _ | ⟨s, rest⟩
        · simp only [Except.ok.injEq, Prod.mk.injEq] at h
          obtain ⟨h1, h2⟩ := h
          constructor
          · intro _
            exact h2.symm
          · intro s' rest' heq
            rw [← h1] at heq
            simp at heq
        · rcases hemb : embed request.fan_message with e2 | emb <;> rw [hemb] at h
          · simp at h
          · simp only [Except.ok.injEq, Prod.mk.injEq] at h
            obtain ⟨h1, h2⟩ := h
            constructor
            · intro hnil
              rw [← h1] at hnil
              simp at hnil
            · intro s' rest' heq
              rw [← h1] at heq
              simp only [List.cons.injEq] at heq
              obtain ⟨hs, hrest⟩ := heq
              subst hs
              subst hrest
              refine ⟨{ id := next_id, creator_id := request.creator_id,
                        fan_message := request.fan_message,
                        creator_response := (maxByConfidence s rest).text,
                        embedding := emb, created_at := now },
                      ?_, rfl, rfl, rfl, ?_, ?_⟩
              · rw [← h2]
                rfl
              · rw [← h1]
                exact maxByConfidence_mem rest s
              · intro t ht
                rw [← h1] at ht
                exact maxByConfidence_le rest s t ht
  · intro embed vs next_id now cid fan sel rid table' h
    unfold store_feedback at h
    rcases hemb : embed fan with e2 | emb <;> rw [hemb] at h
    · simp at h
    · simp only [store_conversation, Except.ok.injEq, Prod.mk.injEq] at h
      obtain ⟨-, h2⟩ := h
      exact ⟨_, by rw [← h2], rfl, rfl, rfl⟩

/-- C1 (counterexample): a successful suggestion-generation call on an
empty conversation store leaves the store with one row, not unchanged —
`get_suggestions` itself writes the best suggestion into the vector store
before any feedback call. -/
theorem C1_conversation_growth_counterexample :
    ((get_suggestions_endpoint (fun _ => .ok [1]) (fun _ _ _ _ => .ok ["hey there"])
      (fun _ _ => 0) [{ id := 1, name := "c" }] [] [] [] [] []
      { creator_id := 1, fan_message := "hi" } 1 0 0).map (fun p => p.2.length)
      = .ok 1)
    ∧ ¬ ((get_suggestions_endpoint (fun _ => .ok [1]) (fun _ _ _ _ => .ok ["hey there"])
      (fun _ _ => 0) [{ id := 1, name := "c" }] [] [] [] [] []
      { creator_id := 1, fan_message := "hi" } 1 0 0).map (fun p => p.2)
      = .ok []) := by
  constructor <;>
    norm_num [get_suggestions_endpoint, find_and_use_examples, generate_suggestions,
      parseSuggestions, find_similar_style_examples, find_similar_response_examples,
      find_similar_conversations, findSimilar, insertionSort, orderedInsert,
      store_conversation, maxByConfidence, Except.map, exceptFallback]

theorem runSteps_append (l1 l2 : List (ORMSession → ORMSession)) (s : ORMSession) :
    runSteps (l1 ++ l2) s = runSteps l2 (runSteps l1 s) := by
  simp [runSteps, List.foldl_append]

/-- A session step that stages or flushes but does not commit leaves the
committed tables unchanged. -/
def PreservesCommitted (f : ORMSession → ORMSession) : Prop :=
  ∀ s, (f s).committed_examples = s.committed_examples ∧
       (f s).committed_responses = s.committed_responses

theorem runSteps_preserves_committed :
    ∀ (steps : List (ORMSession → ORMSession)),
    (∀ f ∈ steps, PreservesCommitted f) → ∀ s : ORMSession,
    (runSteps steps s).committed_examples = s.committed_examples ∧
      (runSteps steps s).committed_responses = s.committed_responses := by
  intro steps
  induction steps with
  | nil => intro _ s; exact ⟨rfl, rfl⟩
  | cons f rest ih =>
    intro h s
    have hf := h f (List.mem_cons_self f rest)
    have hrest := ih (fun g hg => h g (List.mem_cons_of_mem f hg)) (f s)
    simp only [runSteps, List.foldl_cons] at hrest ⊢
    exact ⟨hrest.1.trans (hf s).1, hrest.2.trans (hf s).2⟩

theorem store_response_example_steps_front_preserves
    (creator_id : Nat) (fan_message : String) (responses : List String)
    (embedding : List ℚ) (rankings : Option (List Nat)) (category : Option String) :
    ∀ f ∈ ([sessionAddExample
        { id := 0, creator_id := creator_id, fan_message := fan_message,
          category := category, embedding := embedding },
       sessionFlush]
      ++ responses.enum.map (fun p s =>
          sessionAddResponse
            { id := 0, example_id := lastPendingExampleId s,
              response_text := p.2, ranking := rankingAt rankings p.1 } s)),
    PreservesCommitted f := by
  intro f hf
  rcases List.mem_append.mp hf with hl | hr
  · rcases List.mem_cons.mp hl with rfl | hl2
    · intro s; exact ⟨rfl, rfl⟩
    · rcases List.mem_cons.mp hl2 with rfl | hl3
      · intro s; exact ⟨rfl, rfl⟩
      · simp at hl3
  · rcases List.mem_map.mp hr with ⟨p, -, rfl⟩
    intro s; exact ⟨rfl, rfl⟩

theorem runSteps_child_adds (rankings : Option (List Nat)) (N : Nat) :
    ∀ (rs : List (Nat × String)) (t : ORMSession), lastPendingExampleId t = N →
    runSteps (rs.map (fun p s => sessionAddResponse
        { id := 0, example_id := lastPendingExampleId s,
          response_text := p.2, ranking := rankingAt rankings p.1 } s)) t
      = { t with pending_responses := t.pending_responses ++ rs.map (fun p =>
          { id := 0, example_id := N, response_text := p.2,
            ranking := rankingAt rankings p.1 }) } := by
  intro rs
  induction rs with
  | nil => intro t _; simp [runSteps]
  | cons p rest ih =>
    intro t ht
    simp only [List.map_cons, runSteps, List.foldl_cons]
    have ht' : lastPendingExampleId
        (sessionAddResponse
          { id := 0, example_id := lastPendingExampleId t,
            response_text := p.2, ranking := rankingAt rankings p.1 } t) = N := by
      simpa [sessionAddResponse, lastPendingExampleId] using ht
    have := ih (sessionAddResponse
      { id := 0, example_id := lastPendingExampleId t,
        response_text := p.2, ranking := rankingAt rankings p.1 } t) ht'
    simp only [runSteps] at this
    rw [this]
    simp [sessionAddResponse, ht, List.append_assoc]

/-- The full `store_response_example` call on a clean session: the parent
row (with its flush-assigned id) and every child row become committed
together by the single final commit, the pending sets end empty, and the
id counter advances by one. -/
theorem store_response_example_spec (creator_id : Nat) (fan_message : String)
    (responses : List String) (embedding : List ℚ)
    (rankings : Option (List Nat)) (category : Option String) (s : ORMSession)
    (h1 : s.pending_examples = []) (h2 : s.pending_responses = []) :
    store_response_example creator_id fan_message responses embedding rankings
      category s
      = { committed_examples := s.committed_examples
            ++ [{ id := s.next_id, creator_id := creator_id,
                  fan_message := fan_message, category := category,
                  embedding := embedding }],
          committed_responses := s.committed_responses
            ++ responses.enum.map (fun p =>
                { id := 0, example_id := s.next_id, response_text := p.2,
                  ranking := rankingAt rankings p.1 }),
          pending_examples := [], pending_responses := [],
          next_id := s.next_id + 1 } := by
  unfold store_response_example store_response_example_steps
  rw [show ([sessionAddExample
        { id := 0, creator_id := creator_id, fan_message := fan_message,
          category := category, embedding := embedding },
       sessionFlush]
      ++ responses.enum.map (fun p s =>
          sessionAddResponse
            { id := 0, example_id := lastPendingExampleId s,
              response_text := p.2, ranking := rankingAt rankings p.1 } s))
      ++ [sessionCommit]
    = [sessionAddExample
        { id := 0, creator_id := creator_id, fan_message := fan_message,
          category := category, embedding := embedding }]
      ++ [sessionFlush]
      ++ responses.enum.map (fun p s =>
          sessionAddResponse
            { id := 0, example_id := lastPendingExampleId s,
              response_text := p.2, ranking := rankingAt rankings p.1 } s)
      ++ [sessionCommit] from by simp]
  rw [runSteps_append, runSteps_append, runSteps_append]
  have hadd : runSteps [sessionAddExample
      { id := 0, creator_id := creator_id, fan_message := fan_message,
        category := category, embedding := embedding }] s
      = { s with pending_examples :=
            [{ id := 0, creator_id := creator_id, fan_message := fan_message,
               category := category, embedding := embedding }] } := by
    simp [runSteps, sessionAddExample, h1]
  rw [hadd]
  have hflush : runSteps [sessionFlush]
      ({ s with pending_examples :=
          [{ id := 0, creator_id := creator_id, fan_message := fan_message,
             category := category, embedding := embedding }] })
      = { s with
          pending_examples :=
            [{ id := s.next_id, creator_id := creator_id, fan_message := fan_message,
               category := category, embedding := embedding }],
          next_id := s.next_id + 1 } := by
    simp [runSteps, sessionFlush, List.enum]
  rw [hflush]
  rw [runSteps_child_adds rankings s.next_id _ _ (by simp [lastPendingExampleId])]
  simp [runSteps, sessionCommit, h2]

/-- C7: `store_response_example` is atomic — interrupting the call after
any proper prefix of its session steps (every step but the final commit)
leaves the committed store exactly as it was, and the completed call
commits the parent row together with all of its child rows. -/
theorem C7_store_response_example_atomic :
    (∀ (creator_id : Nat) (fan_message : String) (responses : List String)
       (embedding : List ℚ) (rankings : Option (List Nat)) (category : Option String)
       (s : ORMSession) (k : Nat),
      k < (store_response_example_steps creator_id fan_message responses embedding
        rankings category).length →
      (runSteps ((store_response_example_steps creator_id fan_message responses
          embedding rankings category).take k) s).committed_examples
        = s.committed_examples
      ∧ (runSteps ((store_response_example_steps creator_id fan_message responses
          embedding rankings category).take k) s).committed_responses
        = s.committed_responses)
    ∧ (∀ (creator_id : Nat) (fan_message : String) (responses : List String)
       (embedding : List ℚ) (rankings : Option (List Nat)) (category : Option String)
       (s : ORMSession),
      s.pending_examples = [] → s.pending_responses = [] →
      (store_response_example creator_id fan_message responses embedding rankings
          category s).committed_examples
        = s.committed_examples
          ++ [{ id := s.next_id, creator_id := creator_id,
                fan_message := fan_message, category := category,
                embedding := embedding }]
      ∧ (store_response_example creator_id fan_message responses embedding rankings
          category s).committed_responses
        = s.committed_responses
          ++ responses.enum.map (fun p =>
              { id := 0, example_id := s.next_id, response_text := p.2,
                ranking := rankingAt rankings p.1 })) := by
  constructor
  · intro creator_id fan_message responses embedding rankings category s k hk
    unfold store_response_example_steps at hk ⊢
    have hk' : k ≤ ([sessionAddExample
        { id := 0, creator_id := creator_id, fan_message := fan_message,
          category := category, embedding := embedding },
       sessionFlush]
      ++ responses.enum.map (fun p s =>
          sessionAddResponse
            { id := 0, example_id := lastPendingExampleId s,
              response_text := p.2, ranking := rankingAt rankings p.1 } s)).length := by
      simp only [List.length_append, List.length_cons, List.length_map,
        List.length_nil] at hk ⊢
      omega
    rw [List.take_append_of_le_length hk']
    refine runSteps_preserves_committed _ ?_ s
    intro f hf
    exact store_response_example_steps_front_preserves creator_id fan_message
      responses embedding rankings category f ((List.take_subset k _) hf)
  · intro creator_id fan_message responses embedding rankings category s h1 h2
    rw [store_response_example_spec creator_id fan_message responses embedding
      rankings category s h1 h2]
    exact ⟨rfl, rfl⟩

/-- A stored style example's caller-visible content (its DB id dropped). -/
def projStyle (e : StyleExample) : String × String × Option String × List ℚ :=
  (e.fan_message, e.creator_response, e.category, e.embedding)

/-- A stored response-example parent's caller-visible content. -/
def projResp (e : ResponseExample) : String × Option String × List ℚ :=
  (e.fan_message, e.category, e.embedding)

theorem bulk_style_loop_spec (embed : String → Except String (List ℚ)) (cid : Nat) :
    ∀ (pairs : List (Nat × StyleExampleCreate)) (table : List StyleExample)
      (next_id created : Nat) (errors : List BulkError),
    ((bulk_style_loop embed cid pairs table next_id created errors).1.map projStyle
      = table.map projStyle ++ pairs.filterMap (fun p =>
          match embed p.2.fan_message with
          | .ok emb => some (p.2.fan_message, p.2.creator_response, p.2.category, emb)
          | .error _ => none))
    ∧ ((bulk_style_loop embed cid pairs table next_id created errors).2.2.1
        = created + (pairs.filterMap (fun p =>
            match embed p.2.fan_message with
            | .ok emb => some emb
            | .error _ => none)).length)
    ∧ ((bulk_style_loop embed cid pairs table next_id created errors).2.2.2
        = errors ++ pairs.filterMap (fun p =>
            match embed p.2.fan_message with
            | .ok _ => none
            | .error e => some ⟨p.1, p.2.fan_message.take 50 ++ "...", e⟩)) := by
  intro pairs
  induction pairs with
  | nil =>
    intro table nid created errors
    simp [bulk_style_loop]
  | cons p rest ih =>
    intro table nid created errors
    obtain ⟨idx, ex⟩ := p
    rcases hemb : embed ex.fan_message with e | emb
    · have h := ih table nid created
        (errors ++ [{ index := idx, fan_message := ex.fan_message.take 50 ++ "...",
                      error := e }])
      simp only [bulk_style_loop, hemb]
      refine ⟨?_, ?_, ?_⟩
      · rw [h.1]
        simp [List.filterMap_cons, hemb]
      · rw [h.2.1]
        simp [List.filterMap_cons, hemb]
      · rw [h.2.2]
        simp [List.filterMap_cons, hemb, List.append_assoc]
    · have h := ih (table ++
          [{ id := nid, creator_id := cid, fan_message := ex.fan_message,
             creator_response := ex.creator_response, category := ex.category,
             embedding := emb }]) (nid + 1) (created + 1) errors
      simp only [bulk_style_loop, hemb]
      refine ⟨?_, ?_, ?_⟩
      · rw [h.1]
        simp [List.filterMap_cons, hemb, projStyle, List.append_assoc]
      · rw [h.2.1]
        simp [List.filterMap_cons, hemb]
        omega
      · rw [h.2.2]
        simp [List.filterMap_cons, hemb]

theorem bulk_response_loop_spec (embed : String → Except String (List ℚ)) (cid : Nat) :
    ∀ (pairs : List (Nat × ResponseExampleCreate)) (s : ORMSession)
      (created : Nat) (errors : List BulkError),
    s.pending_examples = [] → s.pending_responses = [] →
    ((bulk_response_loop embed cid pairs s created errors).1.committed_examples.map
        projResp
      = s.committed_examples.map projResp ++ pairs.filterMap (fun p =>
          if p.2.responses.isEmpty then none
          else match embed p.2.fan_message with
            | .ok emb => some (p.2.fan_message, p.2.category, emb)
            | .error _ => none))
    ∧ ((bulk_response_loop embed cid pairs s created errors).2.1
        = created + (pairs.filterMap (fun p =>
            if p.2.responses.isEmpty then none
            else match embed p.2.fan_message with
              | .ok emb => some emb
              | .error _ => none)).length)
    ∧ ((bulk_response_loop embed cid pairs s created errors).2.2
        = errors ++ pairs.filterMap (fun p =>
            if p.2.responses.isEmpty then
              some { index := p.1, fan_message := p.2.fan_message.take 50 ++ "...",
                     error := "At least one response is required" }
            else match embed p.2.fan_message with
              | .ok _ => none
              | .error e => some ⟨p.1, p.2.fan_message.take 50 ++ "...", e⟩)) := by
  intro pairs
  induction pairs with
  | nil =>
    intro s created errors h1 h2
    simp [bulk_response_loop]
  | cons p rest ih =>
    intro s created errors h1 h2
    obtain ⟨idx, ex⟩ := p
    by_cases hempty : ex.responses.isEmpty
    · have hnil : ex.responses = [] := List.isEmpty_iff.mp hempty
      have h := ih s created
        (errors ++ [{ index := idx, fan_message := ex.fan_message.take 50 ++ "...",
                      error := "At least one response is required" }]) h1 h2
      simp only [bulk_response_loop, hempty, if_true]
      refine ⟨?_, ?_, ?_⟩
      · rw [h.1]
        simp [List.filterMap_cons, hnil]
      · rw [h.2.1]
        simp [List.filterMap_cons, hnil]
      · rw [h.2.2]
        simp [List.filterMap_cons, hnil, List.append_assoc]
    · have hne : ¬ (ex.responses = []) := by
        simpa [List.isEmpty_iff] using hempty
      have hempty2 : ex.responses.isEmpty = false := by
        simpa using hempty
      rcases hemb : embed ex.fan_message with e | emb
      · have h := ih s created
          (errors ++ [{ index := idx, fan_message := ex.fan_message.take 50 ++ "...",
                        error := e }]) h1 h2
        simp only [bulk_response_loop, hempty2, Bool.false_eq_true, if_false, hemb]
        refine ⟨?_, ?_, ?_⟩
        · rw [h.1]
          simp [List.filterMap_cons, hne, hemb]
        · rw [h.2.1]
          simp [List.filterMap_cons, hne, hemb]
        · rw [h.2.2]
          simp [List.filterMap_cons, hne, hemb, List.append_assoc]
      · have hstore := store_response_example_spec cid ex.fan_message
          (ex.responses.map ResponseItemCreate.response_text) emb
          (if (ex.responses.filterMap ResponseItemCreate.ranking).isEmpty then none
           else some (ex.responses.filterMap ResponseItemCreate.ranking))
          ex.category s h1 h2
        have h := ih (store_response_example cid ex.fan_message
          (ex.responses.map ResponseItemCreate.response_text) emb
          (if (ex.responses.filterMap ResponseItemCreate.ranking).isEmpty then none
           else some (ex.responses.filterMap ResponseItemCreate.ranking))
          ex.category s) (created + 1) errors
          (by rw [hstore]) (by rw [hstore])
        simp only [bulk_response_loop, hempty2, Bool.false_eq_true, if_false, hemb]
        refine ⟨?_, ?_, ?_⟩
        · rw [h.1, hstore]
          simp [List.filterMap_cons, hne, hemb, projResp, List.append_assoc]
        · rw [h.2.1]
          simp [List.filterMap_cons, hne, hemb]
          omega
        · rw [h.2.2]
          simp [List.filterMap_cons, hne, hemb]

/-- C9: bulk creation isolates per-item failures.  For both bulk endpoints
and every input list and failure pattern of the embedding service: every
item whose embedding succeeds (and, for response examples, that has at
least one response) is stored, items after a failing item are still
processed, the created count equals the number of successes, the total
equals the input length, and each error entry carries the failing item's
index and its fan-message text truncated to 50 characters. -/
theorem C9_bulk_isolation :
    (∀ (embed : String → Except String (List ℚ)) (creators : List Creator)
       (creator_id : Nat) (examples : List StyleExampleCreate)
       (table : List StyleExample) (next_id : Nat) (c : Creator),
      creators.find? (fun c => c.id = creator_id) = some c →
      (bulk_create_style_examples embed creators creator_id examples table
          next_id).map (fun r => (r.1.map projStyle, r.2.1, r.2.2.1, r.2.2.2))
        = .ok (table.map projStyle ++ examples.enum.filterMap (fun p =>
              match embed p.2.fan_message with
              | .ok emb => some (p.2.fan_message, p.2.creator_response,
                  p.2.category, emb)
              | .error _ => none),
            (examples.enum.filterMap (fun p =>
              match embed p.2.fan_message with
              | .ok emb => some emb
              | .error _ => none)).length,
            examples.length,
            examples.enum.filterMap (fun p =>
              match embed p.2.fan_message with
              | .ok _ => none
              | .error e => some ⟨p.1, p.2.fan_message.take 50 ++ "...", e⟩)))
    ∧ (∀ (embed : String → Except String (List ℚ)) (creators : List Creator)
       (creator_id : Nat) (examples : List ResponseExampleCreate)
       (s : ORMSession) (c : Creator),
      creators.find? (fun c => c.id = creator_id) = some c →
      s.pending_examples = [] → s.pending_responses = [] →
      (bulk_create_response_examples embed creators creator_id examples s).map
          (fun r => (r.1.committed_examples.map projResp, r.2.1, r.2.2.1, r.2.2.2))
        = .ok (s.committed_examples.map projResp ++ examples.enum.filterMap (fun p =>
              if p.2.responses.isEmpty then none
              else match embed p.2.fan_message with
                | .ok emb => some (p.2.fan_message, p.2.category, emb)
                | .error _ => none),
            (examples.enum.filterMap (fun p =>
              if p.2.responses.isEmpty then none
              else match embed p.2.fan_message with
                | .ok emb => some emb
                | .error _ => none)).length,
            examples.length,
            examples.enum.filterMap (fun p =>
              if p.2.responses.isEmpty then
                some { index := p.1, fan_message := p.2.fan_message.take 50 ++ "...",
                       error := "At least one response is required" }
              else match embed p.2.fan_message with
                | .ok _ => none
                | .error e => some ⟨p.1, p.2.fan_message.take 50 ++ "...", e⟩))) := by
  constructor
  · intro embed creators creator_id examples table next_id c hfind
    obtain ⟨l1, l2, l3⟩ := bulk_style_loop_spec embed creator_id examples.enum table
      next_id 0 []
    simp [bulk_create_style_examples, hfind, Except.map, l1, l2, l3]
  · intro embed creators creator_id examples s c hfind h1 h2
    obtain ⟨l1, l2, l3⟩ := bulk_response_loop_spec embed creator_id examples.enum s
      0 [] h1 h2
    simp [bulk_create_response_examples, hfind, Except.map, l1, l2, l3]

end ChatBotApi
